import Mathlib

/-!
# Verification of the `launchlib` supervisory engine (python-service-launcher)

A shallow embedding of the Go package `launchlib` (memory-limit computation,
RSS watchdog state machine, command construction, environment composition,
cgroup parsing, and `os.ExpandEnv`-style variable expansion), together with
theorems settling the behavioural claims about it.

Modelling conventions:
* Go `uint64` values are modelled as `Nat`; where Go wraps modulo 2^64 the
  embedding takes the result `% 2 ^ 64` explicitly.
* Go `float64` arithmetic in `ComputeLimits` is modelled by exact rational
  arithmetic (`ℚ`).  At every concrete input appearing in the theorems below
  the double-precision result and the exact rational result coincide (the
  products involved are at least 2 · 10⁻⁷ away from the nearest integer, far
  above the rounding error of double precision at magnitude ~2^30).
* The Go conversion `uint64(f)` truncates a non-negative in-range float
  toward zero, i.e. takes the floor; for negative or oversized inputs Go
  leaves the result unspecified, and the embedding clamps to `0`
  (`Int.toNat`) — no theorem below depends on the unspecified cases.
* File access (`fs.FS`) is injected as a function `String → Option String`
  from path to file contents, mirroring the injectable filesystem used by
  `MemoryLimiter`; `runtime.NumCPU()` and the inherited process environment
  are likewise passed as parameters.
* Go `map[string]string` values are modelled as functions
  `String → Option String`; Go map insertion order over distinct keys does
  not affect this functional view.
-/

namespace Launchlib

/-- Environment / string-keyed Go map: key to optional value. -/
def Env : Type := String → Option String

/-- The empty map (`make(map[string]string)`). -/
def Env.empty : Env := fun _ => none

/-- Go `m[k] = v`. -/
def Env.insert (m : Env) (k v : String) : Env :=
  fun q => if q = k then some v else m q

/-- Go `for k, v := range extra { m[k] = v }`: every binding of `extra`
overwrites `m`. -/
def Env.overlay (m extra : Env) : Env :=
  fun q =>
    match extra q with
    | some v => some v
    | none => m q

/-- The `setDefault` / `setDefaultMap` (process.go:149, memory.go:262): set a key
only if it is not already present. -/
def Env.setDefault (m : Env) (k v : String) : Env :=
  fun q => if q = k then (match m k with | some w => some w | none => some v) else m q

/-- Memory management mode; Go declares it as a string type (config.go:31). -/
abbrev MemoryMode := String

/-- The `MemoryModeCgroupAware` (config.go:36). -/
def MemoryModeCgroupAware : MemoryMode := "cgroup-aware"

/-- The `MemoryModeFixed` (config.go:39). -/
def MemoryModeFixed : MemoryMode := "fixed"

/-- The `MemoryModeUnmanaged` (config.go:42). -/
def MemoryModeUnmanaged : MemoryMode := "unmanaged"

/-- The `MemoryConfig` (config.go:101). Percentages and the fragmentation buffer
are Go `float64`, modelled as `ℚ`. -/
structure MemoryConfig where
  Mode : MemoryMode
  MaxRSSPercent : ℚ
  FixedLimitBytes : Nat
  HeapFragmentationBuffer : ℚ
  MallocTrimThreshold : Int
  MallocArenaMax : Int
deriving Repr, DecidableEq

/-- The `WatchdogConfig` (config.go:131). `Enabled` is `*bool`, modelled as
`Option Bool`. -/
structure WatchdogConfig where
  Enabled : Option Bool
  PollIntervalSeconds : Int
  SoftLimitPercent : ℚ
  HardLimitPercent : ℚ
  GracePeriodSeconds : Int
deriving Repr, DecidableEq

/-- The `ResourceConfig` (config.go:154). -/
structure ResourceConfig where
  MaxOpenFiles : Nat
  MaxProcesses : Nat
  CoreDumpEnabled : Bool
deriving Repr, DecidableEq

/-- The `SubProcessConfig` (config.go:166). -/
structure SubProcessConfig where
  Name : String
  Executable : String
  Args : List String
  Env : Env

/-- The `MergedConfig` (config.go:212).

Modelled from the spec: the `LaunchMode` field (a string; values `"pex"`,
`"module"`, `"script"`, `"uvicorn"`, `"gunicorn"`, `"command"`) is referenced
by `BuildCommandArgs` in process.go and by the tests, but the file declaring
the `LaunchMode` constants is not under src/; the constant values follow the
repository's configuration reference (launch-modes.md). -/
structure MergedConfig where
  LaunchMode : String
  Executable : String
  PythonPath : String
  EntryPoint : String
  Args : List String
  Env : Env
  PythonOpts : List String
  Memory : MemoryConfig
  Watchdog : WatchdogConfig
  Resources : ResourceConfig
  Dirs : List String
  SubProcesses : List SubProcessConfig
  EffectiveMemoryLimitBytes : Nat
  IsContainer : Bool
  CgroupVersion : Nat

/-- The `LaunchModePEX` — modelled from the spec (launch-modes.md). -/
def LaunchModePEX : String := "pex"

/-- The `LaunchModeModule` — modelled from the spec (launch-modes.md). -/
def LaunchModeModule : String := "module"

/-- The `LaunchModeScript` — modelled from the spec (launch-modes.md). -/
def LaunchModeScript : String := "script"

/-- The `LaunchModeUvicorn` — modelled from the spec (launch-modes.md). -/
def LaunchModeUvicorn : String := "uvicorn"

/-- The `LaunchModeGunicorn` — modelled from the spec (launch-modes.md). -/
def LaunchModeGunicorn : String := "gunicorn"

/-- The `LaunchModeCommand` — modelled from the spec (launch-modes.md). -/
def LaunchModeCommand : String := "command"

/-- The `MemoryLimits` (memory.go:52). -/
structure MemoryLimits where
  CgroupLimitBytes : Nat
  EffectiveLimitBytes : Nat
  SoftWarnBytes : Nat
  HardKillBytes : Nat
  CgroupVersion : Nat
  IsContainer : Bool
deriving Repr, DecidableEq

/-- The `minimumEffectiveLimitBytes = 64 * 1024 * 1024` (memory.go:42). -/
def minimumEffectiveLimitBytes : Nat := 64 * 1024 * 1024

/-- Go's `uint64(f)` conversion on the rational model of a float: truncation
toward zero for non-negative values (negative values, unspecified in Go, are
clamped to zero; no theorem depends on them). -/
def ratToUint64 (q : ℚ) : Nat := q.floor.toNat

/-- Errors surfaced by the memory limiter (`fmt.Errorf` sites, memory.go). -/
inductive MemErr where
  | fixedLimitZero
  | unknownMode (mode : String)
  | detectFailed
  | unsupportedCgroupVersion (v : Nat)
  | readFailed (path : String)
  | parseFailed (content : String)
  | memTotalParseFailed
  | memTotalNotFound
deriving Repr, DecidableEq

/-- The arithmetic tail of `ComputeLimits` (memory.go:116–131): effective
limit from the raw ceiling with the 64 MiB floor applied last, and the
watchdog thresholds computed against the raw cgroup limit. -/
def finishLimits (config : MergedConfig) (limits : MemoryLimits) : MemoryLimits :=
  let base := ratToUint64 ((limits.CgroupLimitBytes : ℚ) * config.Memory.MaxRSSPercent / 100)
  let effective0 := ratToUint64 ((base : ℚ) * (1 - config.Memory.HeapFragmentationBuffer))
  let effective := if effective0 < minimumEffectiveLimitBytes then minimumEffectiveLimitBytes else effective0
  { limits with
      EffectiveLimitBytes := effective
      SoftWarnBytes := ratToUint64 ((limits.CgroupLimitBytes : ℚ) * config.Watchdog.SoftLimitPercent / 100)
      HardKillBytes := ratToUint64 ((limits.CgroupLimitBytes : ℚ) * config.Watchdog.HardLimitPercent / 100) }

/-- The `MemoryLimiter.ComputeLimits` (memory.go:84–133).  The cgroup probe
(`detectCgroupVersion` and `readCgroupMemoryLimit`, which in Go read through
the injected `fs.FS`) is passed in as `detectVersion` and `readLimit`. -/
def ComputeLimits (config : MergedConfig)
    (detectVersion : Except MemErr Nat)
    (readLimit : Nat → Except MemErr Nat) : Except MemErr MemoryLimits :=
  let limits : MemoryLimits :=
    { CgroupLimitBytes := 0, EffectiveLimitBytes := 0, SoftWarnBytes := 0
      HardKillBytes := 0, CgroupVersion := 0, IsContainer := config.IsContainer }
  if config.Memory.Mode = MemoryModeUnmanaged then
    Except.ok limits
  else if config.Memory.Mode = MemoryModeFixed then
    if config.Memory.FixedLimitBytes = 0 then
      Except.error MemErr.fixedLimitZero
    else
      Except.ok (finishLimits config { limits with CgroupLimitBytes := config.Memory.FixedLimitBytes })
  else if config.Memory.Mode = MemoryModeCgroupAware then
    match detectVersion with
    | Except.error _ => Except.error MemErr.detectFailed
    | Except.ok version =>
      match readLimit version with
      | Except.error e => Except.error e
      | Except.ok cgroupLimit =>
        Except.ok (finishLimits config
          { limits with CgroupVersion := version, CgroupLimitBytes := cgroupLimit })
  else
    Except.error (MemErr.unknownMode config.Memory.Mode)

/-- The `BuildMemoryEnv` (memory.go:137–180).  `runtime.NumCPU()` is injected as
`numCPU`. -/
def BuildMemoryEnv (config : MergedConfig) (limits : MemoryLimits) (numCPU : Nat) : Env :=
  if config.Memory.Mode = MemoryModeUnmanaged then Env.empty
  else
    let env := Env.empty
    let env := env.insert "MEMORY_LIMIT_BYTES" (toString limits.EffectiveLimitBytes)
    let env := env.insert "CGROUP_LIMIT_BYTES" (toString limits.CgroupLimitBytes)
    let env := env.insert "MEMORY_MODE" config.Memory.Mode
    let env := env.insert "SLS_MEMORY_LIMIT_BYTES" (toString limits.EffectiveLimitBytes)
    let env := env.insert "SLS_CGROUP_LIMIT_BYTES" (toString limits.CgroupLimitBytes)
    let env := env.insert "SLS_MEMORY_MODE" config.Memory.Mode
    let env := if 0 < config.Memory.MallocArenaMax then
        env.insert "MALLOC_ARENA_MAX" (toString config.Memory.MallocArenaMax) else env
    let env := if 0 ≤ config.Memory.MallocTrimThreshold then
        env.insert "MALLOC_TRIM_THRESHOLD_" (toString config.Memory.MallocTrimThreshold) else env
    let env := env.insert "PYTHONMALLOC" "malloc"
    let env := env.setDefault "OMP_NUM_THREADS" (toString numCPU)
    let env := env.setDefault "MKL_NUM_THREADS" (toString numCPU)
    let env := env.setDefault "OPENBLAS_NUM_THREADS" (toString numCPU)
    let env := env.setDefault "NUMEXPR_MAX_THREADS" (toString numCPU)
    env

/-- The `BuildCPUEnv` (cpu.go:133–142). -/
def BuildCPUEnv (cpuCount : Int) : Env :=
  let s := toString cpuCount
  let env := Env.empty
  let env := env.insert "OMP_NUM_THREADS" s
  let env := env.insert "MKL_NUM_THREADS" s
  let env := env.insert "OPENBLAS_NUM_THREADS" s
  let env := env.insert "NUMEXPR_MAX_THREADS" s
  let env := env.insert "SERVICE_CPU_COUNT" s
  env

/-- The `BuildProcessEnv` (process.go:104–147).  In Go the function finally turns
the map into a `[]string` by iterating the map in unspecified order; the map
itself is the meaningful value and is what this embedding returns.  The
inherited process environment (`os.Environ()`) and `runtime.NumCPU()` are
injected. -/
def BuildProcessEnv (inherited : Env) (config : MergedConfig) (limits : MemoryLimits)
    (serviceName serviceVersion : String) (numCPU : Nat) : Env :=
  let env := inherited
  let env := env.overlay (BuildMemoryEnv config limits numCPU)
  let env := env.overlay config.Env
  let env := env.insert "SERVICE_NAME" serviceName
  let env := env.insert "SERVICE_VERSION" serviceVersion
  let env := env.insert "SLS_SERVICE_NAME" serviceName
  let env := env.insert "SLS_SERVICE_VERSION" serviceVersion
  let env := env.setDefault "PYTHONDONTWRITEBYTECODE" "1"
  let env := env.setDefault "PYTHONUNBUFFERED" "1"
  let env := env.setDefault "TMPDIR" "var/data/tmp"
  env

/-! ## `os.ExpandEnv` (used by `ResolveEnvVarPath`, process.go:93–95)

A faithful model of Go's `os.Expand`/`os.ExpandEnv` (os/env.go), operating on
character lists (the inputs of interest are ASCII, where Go's byte-wise scan
and a char-wise scan coincide).  `os.Getenv` returns `""` for unset
variables, which is how `ExpandEnv` maps undefined references. -/

/-- Go `isShellSpecialVar` (os/env.go). -/
def isShellSpecialVar (c : Char) : Bool :=
  c = '*' || c = '#' || c = '$' || c = '@' || c = '!' || c = '?' || c = '-' ||
    ('0' ≤ c && c ≤ '9')

/-- Go `isAlphaNum` (os/env.go). -/
def isAlphaNum (c : Char) : Bool :=
  c = '_' || ('0' ≤ c && c ≤ '9') || ('a' ≤ c && c ≤ 'z') || ('A' ≤ c && c ≤ 'Z')

/-- Go `getShellName` (os/env.go): returns the referenced variable name and
the number of characters consumed after the `$`. -/
def getShellName (s : List Char) : List Char × Nat :=
  match s with
  | [] => ([], 0)
  | c :: rest =>
    if c = '{' then
      match rest with
      | c1 :: c2 :: _ =>
        if isShellSpecialVar c1 && c2 = '}' then ([c1], 3)
        else
          match rest.findIdx? (· = '}') with
          | none => ([], 1)
          | some 0 => ([], 2)
          | some j => (rest.take j, j + 2)
      | _ =>
        match rest.findIdx? (· = '}') with
        | none => ([], 1)
        | some 0 => ([], 2)
        | some j => (rest.take j, j + 2)
    else if isShellSpecialVar c then ([c], 1)
    else (s.takeWhile isAlphaNum, (s.takeWhile isAlphaNum).length)

/-- Go `os.Expand` (os/env.go) on a character list; the scan loop advances by
at least one character per step, so a fuel counter initialized to the input
length (see `goExpand`) never expires. -/
def goExpandAux (mapping : String → String) : Nat → List Char → List Char
  | 0, s => s
  | _ + 1, [] => []
  | fuel + 1, c :: rest =>
    if c = '$' then
      if rest = [] then ['$']
      else
        let nw := getShellName rest
        if nw.1 = [] ∧ 0 < nw.2 then goExpandAux mapping fuel (rest.drop nw.2)
        else if nw.1 = [] then '$' :: goExpandAux mapping fuel (rest.drop nw.2)
        else (mapping (String.mk nw.1)).data ++ goExpandAux mapping fuel (rest.drop nw.2)
    else c :: goExpandAux mapping fuel rest

/-- Go `os.Expand` (os/env.go) on a character list. -/
def goExpand (mapping : String → String) (s : List Char) : List Char :=
  goExpandAux mapping s.length s

/-- Go `os.ExpandEnv` with an injected environment (`os.Getenv` yields `""`
for unset keys). -/
def goExpandEnv (env : Env) (s : String) : String :=
  String.mk (goExpand (fun name => (env name).getD "") s.data)

/-- The `ResolveEnvVarPath` (process.go:93–95): `return os.ExpandEnv(path)`. -/
def ResolveEnvVarPath (env : Env) (path : String) : String :=
  goExpandEnv env path

/-- The `buildPythonArgs` (process.go:205–220): `[python] [opts…] [extraArgs…]
[config.Args…]`, skipping empty extra arguments. -/
def buildPythonArgs (env : Env) (config : MergedConfig) (extraArgs : List String) : List String :=
  let pythonPath := if config.PythonPath = "" then "python3" else config.PythonPath
  ResolveEnvVarPath env pythonPath :: (config.PythonOpts ++ extraArgs.filter (· ≠ "") ++ config.Args)

/-- The `BuildCommandArgs` (process.go:164–202).  The process environment used
for `$VAR` expansion of `pythonPath` is injected. -/
def BuildCommandArgs (env : Env) (config : MergedConfig) : List String :=
  if config.LaunchMode = LaunchModeCommand then
    config.Executable :: config.Args
  else if config.LaunchMode = LaunchModeModule then
    buildPythonArgs env config ["-m", config.Executable]
  else if config.LaunchMode = LaunchModeScript then
    buildPythonArgs env config ["", config.Executable]
  else if config.LaunchMode = LaunchModeUvicorn then
    let appSpec := if config.EntryPoint ≠ "" then
        config.Executable ++ ":" ++ config.EntryPoint else config.Executable
    buildPythonArgs env config ["-m", "uvicorn", appSpec]
  else if config.LaunchMode = LaunchModeGunicorn then
    let appSpec := if config.EntryPoint ≠ "" then
        config.Executable ++ ":" ++ config.EntryPoint else config.Executable
    buildPythonArgs env config ["-m", "gunicorn", appSpec]
  else
    -- default branch: LaunchModePEX or empty / unrecognized mode
    if config.PythonPath ≠ "" then
      ResolveEnvVarPath env config.PythonPath :: (config.PythonOpts ++ [config.Executable] ++ config.Args)
    else
      config.Executable :: config.Args

/-! ## RSS watchdog state machine (watchdog.go) -/

/-- The `WatchdogState` (watchdog.go:28–35), an `int` enumeration via `iota`. -/
inductive WatchdogState where
  | healthy
  | softWarning
  | hardLimit
  | terminating
deriving Repr, DecidableEq

/-- The underlying `iota` integer of a `WatchdogState`, used by the `<`
comparisons in `check`. -/
def WatchdogState.toNat : WatchdogState → Nat
  | .healthy => 0
  | .softWarning => 1
  | .hardLimit => 2
  | .terminating => 3

/-- One watchdog tick: `RSSWatchdog.check` (watchdog.go:117–157) after a
successful RSS read, together with the state write done by
`terminateProcess` (watchdog.go:160–161).  Returns the state stored in the
watchdog after the tick and whether SIGTERM was issued this tick.  On the
hard-limit branch the code first sets the state to `hardLimit`, then
`terminateProcess` overwrites it with `terminating` before sending
SIGTERM. -/
def check (limits : MemoryLimits) (state : WatchdogState) (rss : Nat) : WatchdogState × Bool :=
  if limits.HardKillBytes ≤ rss ∧ state.toNat < WatchdogState.hardLimit.toNat then
    (WatchdogState.terminating, true)
  else if limits.SoftWarnBytes ≤ rss ∧ state.toNat < WatchdogState.softWarning.toNat then
    (WatchdogState.softWarning, false)
  else if rss < limits.SoftWarnBytes ∧ state = WatchdogState.softWarning then
    (WatchdogState.healthy, false)
  else
    (state, false)

/-- Iterated ticks over a sequence of RSS readings: final state and the
number of ticks that issued SIGTERM. -/
def runChecks (limits : MemoryLimits) : WatchdogState → List Nat → WatchdogState × Nat
  | s, [] => (s, 0)
  | s, rss :: rest =>
    let step := check limits s rss
    let tail := runChecks limits step.1 rest
    (tail.1, (if step.2 then 1 else 0) + tail.2)

/-! ## Cgroup memory limit parsing (memory.go:182–271) -/

/-- The `cgroupV2MemoryMaxPath` after `relPath` (memory.go:29, 268–271). -/
def cgroupV2MemoryMaxPath : String := "sys/fs/cgroup/memory.max"

/-- The `cgroupV1MemoryLimitPath` after `relPath` (memory.go:32). -/
def cgroupV1MemoryLimitPath : String := "sys/fs/cgroup/memory/memory.limit_in_bytes"

/-- The `procMemInfoPath` after `relPath` (memory.go:38). -/
def procMemInfoPath : String := "proc/meminfo"

/-- Go `unicode.IsSpace` restricted to the Latin-1 range (tab, newline,
vertical tab, form feed, carriage return, space, NEL, NBSP); the wider
Unicode space classes do not occur in the ASCII files parsed here. -/
def goIsSpace (c : Char) : Bool :=
  c = ' ' || c = '\t' || c = '\n' || c.toNat = 11 || c.toNat = 12 || c = '\r' ||
    c.toNat = 133 || c.toNat = 160

/-- Go `strings.TrimSpace`. -/
def goTrimSpace (s : String) : String :=
  String.mk (((s.data.dropWhile goIsSpace).reverse.dropWhile goIsSpace).reverse)

/-- Split a character list at every separator character (keeping empty
pieces), as Go's `strings.Split` does for a one-character separator. -/
def splitChars (p : Char → Bool) : List Char → List String
  | [] => [""]
  | c :: rest =>
    let tail := splitChars p rest
    if p c then "" :: tail
    else
      match tail with
      | [] => [String.mk [c]]
      | t :: ts => String.mk (c :: t.data) :: ts

/-- Go `strings.Split(s, "\n")`. -/
def goSplitNewline (s : String) : List String :=
  splitChars (fun c => c = '\n') s.data

/-- Go `strings.HasPrefix`. -/
def goHasPrefix (s pre : String) : Bool :=
  pre.data.isPrefixOf s.data

/-- Go `strings.Fields`: substrings separated by runs of whitespace. -/
def goFields (s : String) : List String :=
  (splitChars goIsSpace s.data).filter (· ≠ "")

/-- Go `strconv.ParseUint(s, 10, 64)`: a non-empty all-digit string whose
value fits in 64 bits; anything else is an error (`none`). -/
def goParseUint64 (s : String) : Option Nat :=
  if s.data = [] then none
  else if s.data.all Char.isDigit then
    let n := s.data.foldl (fun acc c => acc * 10 + (c.toNat - 48)) 0
    if n < 2 ^ 64 then some n else none
  else none

/-- The `MemTotal:` scan of `readSystemMemory` (memory.go:244–256) over the
lines of `/proc/meminfo`.  A line with fewer than two fields is skipped
(`continue`); the kB value is multiplied by 1024 in `uint64` arithmetic. -/
def findMemTotal : List String → Except MemErr Nat
  | [] => Except.error MemErr.memTotalNotFound
  | line :: rest =>
    if goHasPrefix line "MemTotal:" then
      match goFields line with
      | _ :: kbStr :: _ =>
        match goParseUint64 kbStr with
        | some kb => Except.ok (kb * 1024 % 2 ^ 64)
        | none => Except.error MemErr.memTotalParseFailed
      | _ => findMemTotal rest
    else findMemTotal rest

/-- The `readSystemMemory` (memory.go:238–259), with the filesystem injected as
a path-to-contents function. -/
def readSystemMemory (readFile : String → Option String) : Except MemErr Nat :=
  match readFile procMemInfoPath with
  | none => Except.error (MemErr.readFailed procMemInfoPath)
  | some data => findMemTotal (goSplitNewline data)

/-- The `readCgroupMemoryLimit` (memory.go:200–235). -/
def readCgroupMemoryLimit (cgroupVersion : Nat) (readFile : String → Option String) :
    Except MemErr Nat :=
  if cgroupVersion ≠ 2 ∧ cgroupVersion ≠ 1 then
    Except.error (MemErr.unsupportedCgroupVersion cgroupVersion)
  else
    let path := if cgroupVersion = 2 then cgroupV2MemoryMaxPath else cgroupV1MemoryLimitPath
    match readFile path with
    | none => Except.error (MemErr.readFailed path)
    | some data =>
      let content := goTrimSpace data
      if content = "max" then readSystemMemory readFile
      else
        match goParseUint64 content with
        | none => Except.error (MemErr.parseFailed content)
        | some limit =>
          if cgroupVersion = 1 ∧ 2 ^ 60 < limit then readSystemMemory readFile
          else Except.ok limit

/-! ## Config merging and defaults (config.go:231–454) -/

/-- The `StaticLauncherConfig` (config.go:48); fields relevant to merging.  Note
that the struct under src/ carries no launch-mode field. -/
structure StaticLauncherConfig where
  ConfigType : String
  ConfigVersion : Int
  Executable : String
  PythonPath : String
  EntryPoint : String
  Args : List String
  Env : Env
  PythonOpts : List String
  Memory : MemoryConfig
  Resources : ResourceConfig
  Dirs : List String
  Watchdog : WatchdogConfig
  SubProcesses : List SubProcessConfig

/-- The `CustomLauncherConfig` (config.go:182). -/
structure CustomLauncherConfig where
  ConfigType : String
  ConfigVersion : Int
  Env : Env
  PythonOpts : List String
  Args : List String
  Memory : Option MemoryConfig
  Watchdog : Option WatchdogConfig
  DangerousDisableContainerSupport : Bool

/-- The `DefaultMemoryConfig` (config.go:232–240). -/
def DefaultMemoryConfig : MemoryConfig :=
  { Mode := MemoryModeCgroupAware, MaxRSSPercent := 75, FixedLimitBytes := 0
    HeapFragmentationBuffer := 1/10, MallocTrimThreshold := 131072, MallocArenaMax := 2 }

/-- The `DefaultWatchdogConfig` (config.go:243–252). -/
def DefaultWatchdogConfig : WatchdogConfig :=
  { Enabled := some true, PollIntervalSeconds := 5, SoftLimitPercent := 85
    HardLimitPercent := 95, GracePeriodSeconds := 30 }

/-- The `applyMemoryDefaults` (config.go:416–434). -/
def applyMemoryDefaults (config : MemoryConfig) : MemoryConfig :=
  let config := if config.Mode = "" then { config with Mode := DefaultMemoryConfig.Mode } else config
  let config := if config.MaxRSSPercent = 0 then
      { config with MaxRSSPercent := DefaultMemoryConfig.MaxRSSPercent } else config
  let config := if config.HeapFragmentationBuffer = 0 then
      { config with HeapFragmentationBuffer := DefaultMemoryConfig.HeapFragmentationBuffer } else config
  let config := if config.MallocTrimThreshold = 0 then
      { config with MallocTrimThreshold := DefaultMemoryConfig.MallocTrimThreshold } else config
  let config := if config.MallocArenaMax = 0 then
      { config with MallocArenaMax := DefaultMemoryConfig.MallocArenaMax } else config
  config

/-- The `applyWatchdogDefaults` (config.go:436–454). -/
def applyWatchdogDefaults (config : WatchdogConfig) : WatchdogConfig :=
  let config := if config.Enabled = none then { config with Enabled := DefaultWatchdogConfig.Enabled } else config
  let config := if config.PollIntervalSeconds = 0 then
      { config with PollIntervalSeconds := DefaultWatchdogConfig.PollIntervalSeconds } else config
  let config := if config.SoftLimitPercent = 0 then
      { config with SoftLimitPercent := DefaultWatchdogConfig.SoftLimitPercent } else config
  let config := if config.HardLimitPercent = 0 then
      { config with HardLimitPercent := DefaultWatchdogConfig.HardLimitPercent } else config
  let config := if config.GracePeriodSeconds = 0 then
      { config with GracePeriodSeconds := DefaultWatchdogConfig.GracePeriodSeconds } else config
  config

/-- The `mergeMemoryConfig` (config.go:367–391). -/
def mergeMemoryConfig (static : MemoryConfig) (custom : Option MemoryConfig) : MemoryConfig :=
  match custom with
  | none => applyMemoryDefaults static
  | some c =>
    let result := static
    let result := if c.Mode ≠ "" then { result with Mode := c.Mode } else result
    let result := if 0 < c.MaxRSSPercent then { result with MaxRSSPercent := c.MaxRSSPercent } else result
    let result := if 0 < c.FixedLimitBytes then { result with FixedLimitBytes := c.FixedLimitBytes } else result
    let result := if 0 < c.HeapFragmentationBuffer then
        { result with HeapFragmentationBuffer := c.HeapFragmentationBuffer } else result
    let result := if c.MallocTrimThreshold ≠ 0 then
        { result with MallocTrimThreshold := c.MallocTrimThreshold } else result
    let result := if c.MallocArenaMax ≠ 0 then
        { result with MallocArenaMax := c.MallocArenaMax } else result
    applyMemoryDefaults result

/-- The `mergeWatchdogConfig` (config.go:393–414). -/
def mergeWatchdogConfig (static : WatchdogConfig) (custom : Option WatchdogConfig) : WatchdogConfig :=
  match custom with
  | none => applyWatchdogDefaults static
  | some c =>
    let result := static
    let result := if c.Enabled ≠ none then { result with Enabled := c.Enabled } else result
    let result := if 0 < c.PollIntervalSeconds then
        { result with PollIntervalSeconds := c.PollIntervalSeconds } else result
    let result := if 0 < c.SoftLimitPercent then
        { result with SoftLimitPercent := c.SoftLimitPercent } else result
    let result := if 0 < c.HardLimitPercent then
        { result with HardLimitPercent := c.HardLimitPercent } else result
    let result := if 0 < c.GracePeriodSeconds then
        { result with GracePeriodSeconds := c.GracePeriodSeconds } else result
    applyWatchdogDefaults result

/-- The `MergeConfigs` (config.go:291–324).  `os.LookupEnv("CONTAINER")` is
injected as `containerEnvSet`.  The struct literal in src leaves
`LaunchMode` at its zero value. -/
def MergeConfigs (static : StaticLauncherConfig) (custom : CustomLauncherConfig)
    (containerEnvSet : Bool) : MergedConfig :=
  { LaunchMode := ""
    Executable := static.Executable
    PythonPath := static.PythonPath
    EntryPoint := static.EntryPoint
    Args := static.Args ++ custom.Args
    Env := static.Env.overlay custom.Env
    PythonOpts := static.PythonOpts ++ custom.PythonOpts
    Memory := mergeMemoryConfig static.Memory custom.Memory
    Watchdog := mergeWatchdogConfig static.Watchdog custom.Watchdog
    Resources := static.Resources
    Dirs := static.Dirs
    SubProcesses := static.SubProcesses
    EffectiveMemoryLimitBytes := 0
    IsContainer := if custom.DangerousDisableContainerSupport then false else containerEnvSet
    CgroupVersion := 0 }

/-! ## Shared concrete values used by the theorems -/

/-- The Go zero value of `MemoryConfig` (what an absent YAML `memory` block
unmarshals to). -/
def zeroMemoryConfig : MemoryConfig :=
  { Mode := "", MaxRSSPercent := 0, FixedLimitBytes := 0
    HeapFragmentationBuffer := 0, MallocTrimThreshold := 0, MallocArenaMax := 0 }

/-- The Go zero value of `WatchdogConfig`. -/
def zeroWatchdogConfig : WatchdogConfig :=
  { Enabled := none, PollIntervalSeconds := 0, SoftLimitPercent := 0
    HardLimitPercent := 0, GracePeriodSeconds := 0 }

/-- The Go zero value of `ResourceConfig`. -/
def zeroResourceConfig : ResourceConfig :=
  { MaxOpenFiles := 0, MaxProcesses := 0, CoreDumpEnabled := false }

/-- The Go zero value of `StaticLauncherConfig` (modulo the validated
metadata fields, which do not enter the merge). -/
def zeroStaticConfig : StaticLauncherConfig :=
  { ConfigType := "", ConfigVersion := 0, Executable := "", PythonPath := ""
    EntryPoint := "", Args := [], Env := Env.empty, PythonOpts := []
    Memory := zeroMemoryConfig, Resources := zeroResourceConfig, Dirs := []
    Watchdog := zeroWatchdogConfig, SubProcesses := [] }

/-- The Go zero value of `CustomLauncherConfig` (a missing custom config
file). -/
def zeroCustomConfig : CustomLauncherConfig :=
  { ConfigType := "", ConfigVersion := 0, Env := Env.empty, PythonOpts := []
    Args := [], Memory := none, Watchdog := none
    DangerousDisableContainerSupport := false }

/-- The fully-defaulted merged configuration: empty static and custom
configs run through `MergeConfigs`, outside a container. -/
def defaultMergedConfig : MergedConfig := MergeConfigs zeroStaticConfig zeroCustomConfig false

/-- The Go zero value of `MemoryLimits`. -/
def zeroMemoryLimits : MemoryLimits :=
  { CgroupLimitBytes := 0, EffectiveLimitBytes := 0, SoftWarnBytes := 0
    HardKillBytes := 0, CgroupVersion := 0, IsContainer := false }

/-! ## Arithmetic helper lemmas about the `uint64(float64)` model -/

theorem ratToUint64_eq_floor (q : ℚ) : ratToUint64 q = ⌊q⌋.toNat := by
  unfold ratToUint64
  rw [Rat.floor_def', Rat.floor_def]

theorem ratToUint64_mono {q r : ℚ} (h : q ≤ r) : ratToUint64 q ≤ ratToUint64 r := by
  rw [ratToUint64_eq_floor, ratToUint64_eq_floor]
  exact Int.toNat_le_toNat (Int.floor_le_floor h)

theorem ratToUint64_le_nat {q : ℚ} {n : ℕ} (h : q ≤ (n : ℚ)) : ratToUint64 q ≤ n := by
  have h1 : ⌊q⌋ ≤ (n : ℤ) := by
    have := Int.floor_le_floor h
    simpa using this
  rw [ratToUint64_eq_floor]
  omega

theorem ratToUint64_lt_nat {q : ℚ} {n : ℕ} (hn : 0 < n) (h : q < (n : ℚ)) :
    ratToUint64 q < n := by
  have h1 : ⌊q⌋ < (n : ℤ) := by
    have h2 : (⌊q⌋ : ℚ) ≤ q := Int.floor_le q
    have h3 : (⌊q⌋ : ℚ) < (n : ℚ) := lt_of_le_of_lt h2 h
    exact_mod_cast h3
  rw [ratToUint64_eq_floor]
  omega

theorem ratToUint64_cast_le {q : ℚ} (h : 0 ≤ q) : ((ratToUint64 q : ℕ) : ℚ) ≤ q := by
  rw [ratToUint64_eq_floor]
  have h1 : (0 : ℤ) ≤ ⌊q⌋ := Int.floor_nonneg.mpr h
  have h2 : (⌊q⌋ : ℚ) ≤ q := Int.floor_le q
  calc ((⌊q⌋.toNat : ℕ) : ℚ) = ((⌊q⌋ : ℤ) : ℚ) := by exact_mod_cast Int.toNat_of_nonneg h1
    _ ≤ q := h2

theorem ratToUint64_eq_of (q : ℚ) (n : ℕ) (h1 : (n : ℚ) ≤ q) (h2 : q < n + 1) :
    ratToUint64 q = n := by
  rw [ratToUint64_eq_floor]
  have h3 : ⌊q⌋ = (n : ℤ) := by
    rw [Int.floor_eq_iff]
    constructor
    · exact_mod_cast h1
    · exact_mod_cast h2
  rw [h3]
  simp

/-- The fully-defaulted configuration carries the documented memory policy:
cgroup-aware, 75 % target RSS, 10 % fragmentation buffer. -/
theorem defaultMergedConfig_Memory : defaultMergedConfig.Memory =
    { Mode := "cgroup-aware", MaxRSSPercent := 75, FixedLimitBytes := 0
      HeapFragmentationBuffer := 1/10, MallocTrimThreshold := 131072, MallocArenaMax := 2 } := rfl

/-- The fully-defaulted configuration carries the documented watchdog policy:
85 % soft, 95 % hard, 5 s poll, 30 s grace. -/
theorem defaultMergedConfig_Watchdog : defaultMergedConfig.Watchdog =
    { Enabled := some true, PollIntervalSeconds := 5, SoftLimitPercent := 85
      HardLimitPercent := 95, GracePeriodSeconds := 30 } := rfl

/-- Running `ComputeLimits` on the fully-defaulted configuration with a detected
cgroup v2 limit of 1 GiB. -/
theorem computeLimits_default_one_gib :
    ComputeLimits defaultMergedConfig (Except.ok 2) (fun _ => Except.ok (2 ^ 30)) =
      Except.ok { CgroupLimitBytes := 2 ^ 30, EffectiveLimitBytes := 724775731
                  SoftWarnBytes := 912680550, HardKillBytes := 1020054732
                  CgroupVersion := 2, IsContainer := false } := by
  have hC : defaultMergedConfig.IsContainer = false := rfl
  have e1 : ratToUint64 ((805306368 : ℚ)) = 805306368 :=
    ratToUint64_eq_of _ _ (by norm_num) (by norm_num)
  have e2 : ratToUint64 ((3623878656 : ℚ) / 5) = 724775731 :=
    ratToUint64_eq_of _ _ (by norm_num) (by norm_num)
  have e3 : ratToUint64 ((4563402752 : ℚ) / 5) = 912680550 :=
    ratToUint64_eq_of _ _ (by norm_num) (by norm_num)
  have e4 : ratToUint64 ((5100273664 : ℚ) / 5) = 1020054732 :=
    ratToUint64_eq_of _ _ (by norm_num) (by norm_num)
  norm_num [ComputeLimits, finishLimits, minimumEffectiveLimitBytes,
    defaultMergedConfig_Memory, defaultMergedConfig_Watchdog, hC, e1, e2, e3, e4]
  rfl

/-- C1: the spec's worked example for a 1 GiB cgroup limit at default policy
claims `effective_limit_bytes = 724566425`; the code computes
`trunc(1073741824 × 0.75) = 805306368`, then
`trunc(805306368 × 0.9) = 724775731`, which differs from the spec's figure
(the soft and hard figures are as claimed). -/
theorem C1_counterexample :
    (ComputeLimits defaultMergedConfig (Except.ok 2) (fun _ => Except.ok (2 ^ 30))).map
        MemoryLimits.EffectiveLimitBytes = Except.ok 724775731 ∧
    (724775731 : ℕ) ≠ 724566425 := by
  rw [computeLimits_default_one_gib]
  exact ⟨rfl, by decide⟩

/-- C1 (amended): for a cgroup limit of 1 073 741 824 bytes and the default
policy (max_rss_percent = 75, heap_fragmentation_buffer = 0.10,
soft_limit_percent = 85, hard_limit_percent = 95), `ComputeLimits` returns
`effective_limit_bytes = 724775731` (sequential unsigned-integer truncation,
floor-clamped to 64 MiB), `soft_warn_bytes = 912680550` and
`hard_kill_bytes = 1020054732`, the soft and hard thresholds being computed
against the raw cgroup limit — indeed the same percentages of the effective
limit would give different values. -/
theorem C1_limits_at_one_gib :
    ComputeLimits defaultMergedConfig (Except.ok 2) (fun _ => Except.ok (2 ^ 30)) =
      Except.ok { CgroupLimitBytes := 2 ^ 30, EffectiveLimitBytes := 724775731
                  SoftWarnBytes := 912680550, HardKillBytes := 1020054732
                  CgroupVersion := 2, IsContainer := false } ∧
    ratToUint64 ((724775731 : ℚ) * 85 / 100) ≠ 912680550 ∧
    ratToUint64 ((724775731 : ℚ) * 95 / 100) ≠ 1020054732 := by
  refine ⟨computeLimits_default_one_gib, ?_, ?_⟩
  · rw [ratToUint64_eq_of ((724775731 : ℚ) * 85 / 100) 616059371 (by norm_num) (by norm_num)]
    decide
  · rw [ratToUint64_eq_of ((724775731 : ℚ) * 95 / 100) 688536944 (by norm_num) (by norm_num)]
    decide

/-- C8: with memory mode `unmanaged`, `ComputeLimits` succeeds and returns a
`MemoryLimits` whose fields are all zero except `is_container`, and
`BuildMemoryEnv` returns the empty environment map. -/
theorem C8_unmanaged_mode (config : MergedConfig) (detectVersion : Except MemErr Nat)
    (readLimit : Nat → Except MemErr Nat) (limits : MemoryLimits) (numCPU : Nat)
    (h : config.Memory.Mode = MemoryModeUnmanaged) :
    ComputeLimits config detectVersion readLimit =
      Except.ok { zeroMemoryLimits with IsContainer := config.IsContainer } ∧
    BuildMemoryEnv config limits numCPU = Env.empty := by
  constructor
  · unfold ComputeLimits
    rw [if_pos h]
    rfl
  · unfold BuildMemoryEnv
    rw [if_pos h]

theorem C8_unmanaged_mode_witness :
    ComputeLimits { defaultMergedConfig with Memory := { zeroMemoryConfig with Mode := "unmanaged" } }
        (Except.ok 2) (fun _ => Except.ok (2 ^ 30)) = Except.ok zeroMemoryLimits ∧
    BuildMemoryEnv { defaultMergedConfig with Memory := { zeroMemoryConfig with Mode := "unmanaged" } }
        zeroMemoryLimits 4 = Env.empty := by
  have h := C8_unmanaged_mode
    { defaultMergedConfig with Memory := { zeroMemoryConfig with Mode := "unmanaged" } }
    (Except.ok 2) (fun _ => Except.ok (2 ^ 30)) zeroMemoryLimits 4 rfl
  simpa using h

/-- C9: with memory mode `fixed`, `ComputeLimits` errors exactly when
`fixed_limit_bytes` is zero, and on success the raw ceiling
`cgroup_limit_bytes` equals `fixed_limit_bytes`. -/
theorem C9_fixed_mode (config : MergedConfig) (detectVersion : Except MemErr Nat)
    (readLimit : Nat → Except MemErr Nat) (h : config.Memory.Mode = MemoryModeFixed) :
    ((∃ e, ComputeLimits config detectVersion readLimit = Except.error e) ↔
      config.Memory.FixedLimitBytes = 0) ∧
    ∀ limits, ComputeLimits config detectVersion readLimit = Except.ok limits →
      limits.CgroupLimitBytes = config.Memory.FixedLimitBytes := by
  unfold ComputeLimits
  rw [h]
  rw [if_neg (by decide), if_pos rfl]
  by_cases h0 : config.Memory.FixedLimitBytes = 0
  · rw [if_pos h0]
    refine ⟨⟨fun _ => h0, fun _ => ⟨MemErr.fixedLimitZero, rfl⟩⟩, ?_⟩
    intro limits hl
    cases hl
  · rw [if_neg h0]
    constructor
    · constructor
      · rintro ⟨e, he⟩
        cases he
      · intro h0'
        exact absurd h0' h0
    · intro limits hl
      have h2 := Except.ok.inj hl
      rw [← h2]
      rfl

theorem C9_fixed_mode_witness :
    (∃ e, ComputeLimits { defaultMergedConfig with Memory := { zeroMemoryConfig with Mode := "fixed" } }
      (Except.ok 0) (fun v => Except.error (MemErr.unsupportedCgroupVersion v)) = Except.error e) ∧
    ¬(∃ e, ComputeLimits
        { defaultMergedConfig with
            Memory := { zeroMemoryConfig with Mode := "fixed", FixedLimitBytes := 536870912 } }
      (Except.ok 0) (fun v => Except.error (MemErr.unsupportedCgroupVersion v)) = Except.error e) := by
  constructor
  · exact (C9_fixed_mode _ _ _ rfl).1.mpr rfl
  · intro hex
    exact absurd ((C9_fixed_mode _ _ _ rfl).1.mp hex) (by decide)

/-- Inversion for successful `ComputeLimits` runs: the result is either the
zeroed unmanaged record or `finishLimits` applied to some raw ceiling. -/
theorem computeLimits_ok_cases (config : MergedConfig) (detectVersion : Except MemErr Nat)
    (readLimit : Nat → Except MemErr Nat) (limits : MemoryLimits)
    (hok : ComputeLimits config detectVersion readLimit = Except.ok limits) :
    (config.Memory.Mode = MemoryModeUnmanaged ∧
      limits = { zeroMemoryLimits with IsContainer := config.IsContainer }) ∨
    ∃ version cgroupLimit, limits = finishLimits config
      { zeroMemoryLimits with
          IsContainer := config.IsContainer,
          CgroupVersion := version, CgroupLimitBytes := cgroupLimit } := by
  unfold ComputeLimits at hok
  by_cases h1 : config.Memory.Mode = MemoryModeUnmanaged
  · rw [if_pos h1] at hok
    exact Or.inl ⟨h1, (Except.ok.inj hok).symm⟩
  · rw [if_neg h1] at hok
    by_cases h2 : config.Memory.Mode = MemoryModeFixed
    · rw [if_pos h2] at hok
      by_cases h3 : config.Memory.FixedLimitBytes = 0
      · rw [if_pos h3] at hok
        cases hok
      · rw [if_neg h3] at hok
        exact Or.inr ⟨0, config.Memory.FixedLimitBytes, (Except.ok.inj hok).symm⟩
    · rw [if_neg h2] at hok
      by_cases h4 : config.Memory.Mode = MemoryModeCgroupAware
      · rw [if_pos h4] at hok
        split at hok
        · cases hok
        · split at hok
          · cases hok
          · exact Or.inr ⟨_, _, (Except.ok.inj hok).symm⟩
      · rw [if_neg h4] at hok
        cases hok

/-- The watchdog thresholds of `finishLimits` are ordered whenever the
percentages are: `soft ≤ hard ≤ 100` forces
`soft_warn ≤ hard_kill ≤ cgroup_limit`. -/
theorem finishLimits_threshold_order (config : MergedConfig) (seed : MemoryLimits)
    (h1 : config.Watchdog.SoftLimitPercent ≤ config.Watchdog.HardLimitPercent)
    (h2 : config.Watchdog.HardLimitPercent ≤ 100) :
    (finishLimits config seed).SoftWarnBytes ≤ (finishLimits config seed).HardKillBytes ∧
    (finishLimits config seed).HardKillBytes ≤ (finishLimits config seed).CgroupLimitBytes := by
  have hL : (0 : ℚ) ≤ (seed.CgroupLimitBytes : ℚ) := Nat.cast_nonneg _
  have hproj : (finishLimits config seed).CgroupLimitBytes = seed.CgroupLimitBytes := rfl
  constructor
  · apply ratToUint64_mono
    have hmul : (seed.CgroupLimitBytes : ℚ) * config.Watchdog.SoftLimitPercent ≤
        (seed.CgroupLimitBytes : ℚ) * config.Watchdog.HardLimitPercent :=
      mul_le_mul_of_nonneg_left h1 hL
    exact div_le_div_of_nonneg_right hmul (by norm_num) |>.trans_eq rfl
  · rw [hproj]
    apply ratToUint64_le_nat
    rw [div_le_iff₀ (by norm_num : (0 : ℚ) < 100)]
    nlinarith

/-- A static config whose only entries are `memory.mode = fixed` and
`memory.fixedLimitBytes = 2`. -/
def fixedTwoStatic : StaticLauncherConfig :=
  { zeroStaticConfig with
      Memory := { zeroMemoryConfig with Mode := "fixed", FixedLimitBytes := 2 } }

/-- The config `fixedTwoStatic` merged with an empty custom config, outside a
container. -/
def fixedTwoMerged : MergedConfig := MergeConfigs fixedTwoStatic zeroCustomConfig false

/-- Running `ComputeLimits` on the merged 2-byte fixed configuration: the effective
limit is clamped up to the 64 MiB floor and truncation collapses both
watchdog thresholds to 1 byte. -/
theorem computeLimits_fixed_two :
    ComputeLimits fixedTwoMerged
        (Except.ok 0) (fun v => Except.error (MemErr.unsupportedCgroupVersion v)) =
      Except.ok { CgroupLimitBytes := 2, EffectiveLimitBytes := 64 * 1024 * 1024
                  SoftWarnBytes := 1, HardKillBytes := 1
                  CgroupVersion := 0, IsContainer := false } := by
  have hM : fixedTwoMerged.Memory =
      { Mode := "fixed", MaxRSSPercent := 75, FixedLimitBytes := 2
        HeapFragmentationBuffer := 1/10, MallocTrimThreshold := 131072
        MallocArenaMax := 2 } := rfl
  have hW : fixedTwoMerged.Watchdog =
      { Enabled := some true, PollIntervalSeconds := 5, SoftLimitPercent := 85
        HardLimitPercent := 95, GracePeriodSeconds := 30 } := rfl
  have hC : fixedTwoMerged.IsContainer = false := rfl
  have e1 : ratToUint64 ((3 : ℚ) / 2) = 1 :=
    ratToUint64_eq_of _ _ (by norm_num) (by norm_num)
  have e2 : ratToUint64 ((9 : ℚ) / 10) = 0 :=
    ratToUint64_eq_of _ _ (by norm_num) (by norm_num)
  have e3 : ratToUint64 ((17 : ℚ) / 10) = 1 :=
    ratToUint64_eq_of _ _ (by norm_num) (by norm_num)
  have e4 : ratToUint64 ((19 : ℚ) / 10) = 1 :=
    ratToUint64_eq_of _ _ (by norm_num) (by norm_num)
  norm_num [ComputeLimits, finishLimits, minimumEffectiveLimitBytes, hM, hW, hC, e1, e2, e3, e4]
  rfl

/-- C3: the spec claims `soft_warn_bytes < hard_kill_bytes` for every merged
configuration whenever both are non-zero, but the percent invariant
`0 < soft < hard ≤ 100` is never validated and integer truncation can
collapse the two thresholds: merging a static config in `fixed` mode with
`fixedLimitBytes = 2` (defaults 85/95 elsewhere) yields
`soft_warn_bytes = hard_kill_bytes = 1`, both non-zero and not strictly
ordered. -/
theorem C3_counterexample :
    ComputeLimits fixedTwoMerged
        (Except.ok 0) (fun v => Except.error (MemErr.unsupportedCgroupVersion v)) =
      Except.ok { CgroupLimitBytes := 2, EffectiveLimitBytes := 64 * 1024 * 1024
                  SoftWarnBytes := 1, HardKillBytes := 1
                  CgroupVersion := 0, IsContainer := false } ∧
    (1 : ℕ) ≠ 0 ∧ ¬((1 : ℕ) < 1) :=
  ⟨computeLimits_fixed_two, by decide, by decide⟩

/-- C3 (amended): for every merged configuration whose (merged, defaulted)
watchdog percentages satisfy `soft ≤ hard ≤ 100`, the computed limits
satisfy `soft_warn_bytes ≤ hard_kill_bytes ≤ cgroup_limit_bytes`.  Strict
ordering of the byte thresholds can fail by truncation even at the default
85/95 percentages (see the counterexample), and nothing in the code
validates the percent invariant itself. -/
theorem C3_threshold_order (static : StaticLauncherConfig) (custom : CustomLauncherConfig)
    (containerEnvSet : Bool) (detectVersion : Except MemErr Nat)
    (readLimit : Nat → Except MemErr Nat) (limits : MemoryLimits)
    (hs : (MergeConfigs static custom containerEnvSet).Watchdog.SoftLimitPercent ≤
      (MergeConfigs static custom containerEnvSet).Watchdog.HardLimitPercent)
    (hh : (MergeConfigs static custom containerEnvSet).Watchdog.HardLimitPercent ≤ 100)
    (hok : ComputeLimits (MergeConfigs static custom containerEnvSet) detectVersion readLimit =
      Except.ok limits) :
    limits.SoftWarnBytes ≤ limits.HardKillBytes ∧
    limits.HardKillBytes ≤ limits.CgroupLimitBytes := by
  rcases computeLimits_ok_cases _ _ _ _ hok with ⟨_, hz⟩ | ⟨version, cgroupLimit, hf⟩
  · subst hz
    exact ⟨le_refl 0, le_refl 0⟩
  · subst hf
    exact finishLimits_threshold_order _ _ hs hh

theorem C3_threshold_order_witness :
    (912680550 : ℕ) ≤ 1020054732 ∧ (1020054732 : ℕ) ≤ 2 ^ 30 := by
  have h := C3_threshold_order zeroStaticConfig zeroCustomConfig false
    (Except.ok 2) (fun _ => Except.ok (2 ^ 30)) _
    (by rw [show (MergeConfigs zeroStaticConfig zeroCustomConfig false).Watchdog =
          { Enabled := some true, PollIntervalSeconds := 5, SoftLimitPercent := 85
            HardLimitPercent := 95, GracePeriodSeconds := 30 } from rfl]; norm_num)
    (by rw [show (MergeConfigs zeroStaticConfig zeroCustomConfig false).Watchdog =
          { Enabled := some true, PollIntervalSeconds := 5, SoftLimitPercent := 85
            HardLimitPercent := 95, GracePeriodSeconds := 30 } from rfl]; norm_num)
    computeLimits_default_one_gib
  exact h

/-- The effective limit computed by `finishLimits` falls below the 64 MiB
floor whenever the exact product `L × p/100 × (1 − b)` does. -/
theorem effective_below_min (L p b : ℚ)
    (h : L * p / 100 * (1 - b) < (minimumEffectiveLimitBytes : ℚ)) :
    ratToUint64 ((ratToUint64 (L * p / 100) : ℚ) * (1 - b)) < minimumEffectiveLimitBytes := by
  have hminQ : (0 : ℚ) < (minimumEffectiveLimitBytes : ℚ) := by
    norm_num [minimumEffectiveLimitBytes]
  have hminN : 0 < minimumEffectiveLimitBytes := by norm_num [minimumEffectiveLimitBytes]
  rcases le_or_lt 0 (1 - b) with hb | hb
  · rcases le_or_lt 0 (L * p / 100) with hq | hq
    · have h1 : ((ratToUint64 (L * p / 100) : ℕ) : ℚ) ≤ L * p / 100 := ratToUint64_cast_le hq
      have h2 : ((ratToUint64 (L * p / 100) : ℕ) : ℚ) * (1 - b) ≤ L * p / 100 * (1 - b) :=
        mul_le_mul_of_nonneg_right h1 hb
      exact ratToUint64_lt_nat hminN (lt_of_le_of_lt h2 h)
    · have hzero : ratToUint64 (L * p / 100) = 0 := by
        have := ratToUint64_le_nat (q := L * p / 100) (n := 0) (by exact_mod_cast le_of_lt hq)
        omega
      rw [hzero]
      apply ratToUint64_lt_nat hminN
      push_cast
      linarith
  · have h2 : ((ratToUint64 (L * p / 100) : ℕ) : ℚ) * (1 - b) ≤ 0 :=
      mul_nonpos_of_nonneg_of_nonpos (Nat.cast_nonneg _) (le_of_lt hb)
    have h3 : ratToUint64 (((ratToUint64 (L * p / 100) : ℕ) : ℚ) * (1 - b)) ≤ 0 :=
      ratToUint64_le_nat (n := 0) (by exact_mod_cast h2)
    omega

/-- C10: for every successful non-unmanaged computation, the 64 MiB floor is
applied after the percentage and fragmentation reductions — whenever
`cgroup_limit_bytes × max_rss_percent/100 × (1 − heap_fragmentation_buffer)`
is below 64 MiB the returned `effective_limit_bytes` is exactly 64 MiB; in
particular, within the documented policy ranges (`max_rss_percent ≤ 100`,
`0 ≤ heap_fragmentation_buffer ≤ 1`), a raw ceiling below 64 MiB makes the
effective limit exceed the raw cgroup ceiling. -/
theorem C10_minimum_floor (config : MergedConfig) (detectVersion : Except MemErr Nat)
    (readLimit : Nat → Except MemErr Nat) (limits : MemoryLimits)
    (hok : ComputeLimits config detectVersion readLimit = Except.ok limits)
    (hmode : config.Memory.Mode ≠ MemoryModeUnmanaged) :
    ((limits.CgroupLimitBytes : ℚ) * config.Memory.MaxRSSPercent / 100 *
        (1 - config.Memory.HeapFragmentationBuffer) < (minimumEffectiveLimitBytes : ℚ) →
      limits.EffectiveLimitBytes = minimumEffectiveLimitBytes) ∧
    (config.Memory.MaxRSSPercent ≤ 100 →
      0 ≤ config.Memory.HeapFragmentationBuffer →
      config.Memory.HeapFragmentationBuffer ≤ 1 →
      limits.CgroupLimitBytes < minimumEffectiveLimitBytes →
      limits.CgroupLimitBytes < limits.EffectiveLimitBytes) := by
  rcases computeLimits_ok_cases _ _ _ _ hok with ⟨hm, _⟩ | ⟨version, cgroupLimit, hf⟩
  · exact absurd hm hmode
  · have hCg : limits.CgroupLimitBytes = cgroupLimit := by
      rw [hf]
      rfl
    have hmain : (limits.CgroupLimitBytes : ℚ) * config.Memory.MaxRSSPercent / 100 *
        (1 - config.Memory.HeapFragmentationBuffer) < (minimumEffectiveLimitBytes : ℚ) →
        limits.EffectiveLimitBytes = minimumEffectiveLimitBytes := by
      intro hlt
      rw [hf]
      show (if ratToUint64 ((ratToUint64 ((cgroupLimit : ℚ) *
          config.Memory.MaxRSSPercent / 100) : ℕ) *
          (1 - config.Memory.HeapFragmentationBuffer)) < minimumEffectiveLimitBytes then
          minimumEffectiveLimitBytes else _) = minimumEffectiveLimitBytes
      rw [if_pos]
      apply effective_below_min
      rw [← hCg]
      exact hlt
    refine ⟨hmain, ?_⟩
    intro hp hb0 hb1 hsmall
    set L : ℚ := (limits.CgroupLimitBytes : ℚ) with hLdef
    set p : ℚ := config.Memory.MaxRSSPercent
    set b : ℚ := config.Memory.HeapFragmentationBuffer
    have hL : (0 : ℚ) ≤ L := Nat.cast_nonneg _
    have h1b : (0 : ℚ) ≤ 1 - b := by linarith
    have h1b' : 1 - b ≤ 1 := by linarith
    have hprod : L * p / 100 * (1 - b) ≤ L := by
      rcases le_or_lt (L * p / 100) 0 with hq | hq
      · calc L * p / 100 * (1 - b) ≤ 0 := mul_nonpos_of_nonpos_of_nonneg hq h1b
          _ ≤ L := hL
      · have hstep : L * p / 100 ≤ L := by
          rw [div_le_iff₀ (by norm_num : (0 : ℚ) < 100)]
          nlinarith
        calc L * p / 100 * (1 - b) ≤ L * p / 100 * 1 :=
              mul_le_mul_of_nonneg_left h1b' (le_of_lt hq)
          _ = L * p / 100 := mul_one _
          _ ≤ L := hstep
    have hcast : L < (minimumEffectiveLimitBytes : ℚ) := by
      rw [hLdef]
      exact_mod_cast hsmall
    have heff := hmain (lt_of_le_of_lt hprod hcast)
    rw [heff]
    exact hsmall

theorem C10_minimum_floor_witness :
    ({ CgroupLimitBytes := 2, EffectiveLimitBytes := 64 * 1024 * 1024
       SoftWarnBytes := 1, HardKillBytes := 1
       CgroupVersion := 0, IsContainer := false } : MemoryLimits).EffectiveLimitBytes =
      minimumEffectiveLimitBytes ∧
    ({ CgroupLimitBytes := 2, EffectiveLimitBytes := 64 * 1024 * 1024
       SoftWarnBytes := 1, HardKillBytes := 1
       CgroupVersion := 0, IsContainer := false } : MemoryLimits).CgroupLimitBytes <
      ({ CgroupLimitBytes := 2, EffectiveLimitBytes := 64 * 1024 * 1024
         SoftWarnBytes := 1, HardKillBytes := 1
         CgroupVersion := 0, IsContainer := false } : MemoryLimits).EffectiveLimitBytes := by
  have hM : fixedTwoMerged.Memory =
      { Mode := "fixed", MaxRSSPercent := 75, FixedLimitBytes := 2
        HeapFragmentationBuffer := 1/10, MallocTrimThreshold := 131072
        MallocArenaMax := 2 } := rfl
  have h := C10_minimum_floor fixedTwoMerged
    (Except.ok 0) (fun v => Except.error (MemErr.unsupportedCgroupVersion v)) _
    computeLimits_fixed_two (by rw [hM]; decide)
  refine ⟨h.1 ?_, h.2 ?_ ?_ ?_ ?_⟩
  · rw [hM]
    norm_num [minimumEffectiveLimitBytes]
  · rw [hM]
    norm_num
  · rw [hM]
    norm_num
  · rw [hM]
    norm_num
  · norm_num [minimumEffectiveLimitBytes]

/-! ## Watchdog state-machine lemmas -/

/-- Concrete limits used to exercise the watchdog: soft threshold 2 bytes,
hard threshold 4 bytes. -/
def watchLimits : MemoryLimits :=
  { zeroMemoryLimits with SoftWarnBytes := 2, HardKillBytes := 4 }

/-- Once the stored state is `hardLimit` or beyond, a tick changes nothing
and fires nothing. -/
theorem check_absorbing (limits : MemoryLimits) (s : WatchdogState) (rss : Nat)
    (h : 2 ≤ s.toNat) : check limits s rss = (s, false) := by
  have h1 : ¬(limits.HardKillBytes ≤ rss ∧ s.toNat < WatchdogState.hardLimit.toNat) := by
    rintro ⟨_, hs⟩
    rw [show WatchdogState.hardLimit.toNat = 2 from rfl] at hs
    omega
  have h2 : ¬(limits.SoftWarnBytes ≤ rss ∧ s.toNat < WatchdogState.softWarning.toNat) := by
    rintro ⟨_, hs⟩
    rw [show WatchdogState.softWarning.toNat = 1 from rfl] at hs
    omega
  have h3 : ¬(rss < limits.SoftWarnBytes ∧ s = WatchdogState.softWarning) := by
    rintro ⟨_, hs⟩
    subst hs
    simp [WatchdogState.toNat] at h
  unfold check
  rw [if_neg h1, if_neg h2, if_neg h3]

/-- A tick that fires SIGTERM leaves the watchdog in the `terminating`
state. -/
theorem check_fired_terminating (limits : MemoryLimits) (s : WatchdogState) (rss : Nat)
    (h : (check limits s rss).2 = true) : (check limits s rss).1 = WatchdogState.terminating := by
  unfold check at h ⊢
  split_ifs at h ⊢
  simp_all

/-- From an absorbed state, any reading sequence keeps the state and never
fires. -/
theorem runChecks_absorbing (limits : MemoryLimits) (s : WatchdogState)
    (readings : List Nat) (h : 2 ≤ s.toNat) : runChecks limits s readings = (s, 0) := by
  induction readings with
  | nil => rfl
  | cons r rest ih =>
    simp only [runChecks, check_absorbing limits s r h]
    simp [ih]

/-- C2 counterexample: per the claim, a tick with `rss ≥ hard_kill_bytes`
from a state below `hard_limit` leaves the state machine in `hard_limit`;
in the code, `check` assigns `hard_limit` but `terminateProcess` immediately
overwrites it with `terminating` before SIGTERM is delivered, so the state
observed after the tick is `terminating`, not `hard_limit`. -/
theorem C2_counterexample :
    check watchLimits WatchdogState.healthy 5 = (WatchdogState.terminating, true) ∧
    WatchdogState.terminating ≠ WatchdogState.hardLimit := by
  exact ⟨by decide, by decide⟩

/-- C2 (amended): per tick, `rss ≥ hard_kill_bytes` with state below
`hard_limit` transitions through `hard_limit` to `terminating` and fires
SIGTERM; `rss ≥ soft_warn_bytes` (below the hard threshold) with state below
`soft_warning` transitions to `soft_warning`; `rss < soft_warn_bytes` with
state `soft_warning` recovers to `healthy` (assuming the thresholds are
ordered); every other tick leaves the state unchanged; once the state has
reached `hard_limit`/`terminating` it never returns to `healthy` or
`soft_warning` for any sequence of readings; and SIGTERM is fired at most
once over every sequence of RSS readings. -/
theorem C2_watchdog_state_machine :
    (∀ (limits : MemoryLimits) (s : WatchdogState) (rss : Nat),
      limits.HardKillBytes ≤ rss → s.toNat < WatchdogState.hardLimit.toNat →
      check limits s rss = (WatchdogState.terminating, true)) ∧
    (∀ (limits : MemoryLimits) (s : WatchdogState) (rss : Nat),
      rss < limits.HardKillBytes → limits.SoftWarnBytes ≤ rss →
      s.toNat < WatchdogState.softWarning.toNat →
      check limits s rss = (WatchdogState.softWarning, false)) ∧
    (∀ (limits : MemoryLimits) (s : WatchdogState) (rss : Nat),
      limits.SoftWarnBytes ≤ limits.HardKillBytes → rss < limits.SoftWarnBytes →
      s = WatchdogState.softWarning →
      check limits s rss = (WatchdogState.healthy, false)) ∧
    (∀ (limits : MemoryLimits) (s : WatchdogState) (rss : Nat),
      ¬(limits.HardKillBytes ≤ rss ∧ s.toNat < WatchdogState.hardLimit.toNat) →
      ¬(limits.SoftWarnBytes ≤ rss ∧ s.toNat < WatchdogState.softWarning.toNat) →
      ¬(rss < limits.SoftWarnBytes ∧ s = WatchdogState.softWarning) →
      check limits s rss = (s, false)) ∧
    (∀ (limits : MemoryLimits) (s : WatchdogState) (readings : List Nat),
      WatchdogState.hardLimit.toNat ≤ s.toNat →
      runChecks limits s readings = (s, 0)) ∧
    (∀ (limits : MemoryLimits) (s : WatchdogState) (readings : List Nat),
      (runChecks limits s readings).2 ≤ 1) := by
  refine ⟨?_, ?_, ?_, ?_, ?_, ?_⟩
  · intro limits s rss h1 h2
    unfold check
    rw [if_pos ⟨h1, h2⟩]
  · intro limits s rss h1 h2 h3
    unfold check
    rw [if_neg, if_pos ⟨h2, h3⟩]
    rintro ⟨h4, _⟩
    omega
  · intro limits s rss hSH h1 h2
    unfold check
    rw [if_neg, if_neg, if_pos ⟨h1, h2⟩]
    · rintro ⟨h3, h4⟩
      subst h2
      simp [WatchdogState.toNat] at h4
    · rintro ⟨h3, _⟩
      omega
  · intro limits s rss h1 h2 h3
    unfold check
    rw [if_neg h1, if_neg h2, if_neg h3]
  · intro limits s readings h
    exact runChecks_absorbing limits s readings h
  · intro limits s readings
    induction readings generalizing s with
    | nil => exact Nat.zero_le 1
    | cons r rest ih =>
      simp only [runChecks]
      by_cases hfire : (check limits s r).2 = true
      · have hterm := check_fired_terminating limits s r hfire
        rw [hfire, hterm, runChecks_absorbing limits WatchdogState.terminating rest (by decide)]
        simp
      · rw [Bool.not_eq_true] at hfire
        rw [hfire]
        simpa using ih (check limits s r).1

theorem C2_watchdog_state_machine_witness :
    check watchLimits WatchdogState.softWarning 9 = (WatchdogState.terminating, true) ∧
    check watchLimits WatchdogState.healthy 3 = (WatchdogState.softWarning, false) ∧
    check watchLimits WatchdogState.softWarning 1 = (WatchdogState.healthy, false) ∧
    check watchLimits WatchdogState.healthy 1 = (WatchdogState.healthy, false) ∧
    runChecks watchLimits WatchdogState.terminating [1, 9] = (WatchdogState.terminating, 0) ∧
    (runChecks watchLimits WatchdogState.healthy [1, 3, 3, 9]).2 ≤ 1 := by
  refine ⟨?_, ?_, ?_, ?_, ?_, ?_⟩
  · exact C2_watchdog_state_machine.1 watchLimits WatchdogState.softWarning 9
      (by decide) (by decide)
  · exact C2_watchdog_state_machine.2.1 watchLimits WatchdogState.healthy 3
      (by decide) (by decide) (by decide)
  · exact C2_watchdog_state_machine.2.2.1 watchLimits WatchdogState.softWarning 1
      (by decide) (by decide) rfl
  · exact C2_watchdog_state_machine.2.2.2.1 watchLimits WatchdogState.healthy 1
      (by decide) (by decide) (by decide)
  · exact C2_watchdog_state_machine.2.2.2.2.1 watchLimits WatchdogState.terminating [1, 9]
      (by decide)
  · exact C2_watchdog_state_machine.2.2.2.2.2 watchLimits WatchdogState.healthy [1, 3, 3, 9]

/-! ## Cgroup memory-limit parsing: fall-back characterization -/

/-- The `readCgroupMemoryLimit` under cgroup v2 once the limit file has been
read. -/
theorem readCgroup_v2_of_read (readFile : String → Option String) (content : String)
    (h : readFile cgroupV2MemoryMaxPath = some content) :
    readCgroupMemoryLimit 2 readFile =
      (if goTrimSpace content = "max" then readSystemMemory readFile
       else
        match goParseUint64 (goTrimSpace content) with
        | none => Except.error (MemErr.parseFailed (goTrimSpace content))
        | some limit => Except.ok limit) := by
  unfold readCgroupMemoryLimit
  rw [if_neg (by decide)]
  show (match readFile cgroupV2MemoryMaxPath with
    | none => Except.error (MemErr.readFailed cgroupV2MemoryMaxPath)
    | some data =>
      if goTrimSpace data = "max" then readSystemMemory readFile
      else
        match goParseUint64 (goTrimSpace data) with
        | none => Except.error (MemErr.parseFailed (goTrimSpace data))
        | some limit => Except.ok limit) = _
  rw [h]

/-- The `readCgroupMemoryLimit` under cgroup v1 once the limit file has been
read. -/
theorem readCgroup_v1_of_read (readFile : String → Option String) (content : String)
    (h : readFile cgroupV1MemoryLimitPath = some content) :
    readCgroupMemoryLimit 1 readFile =
      (if goTrimSpace content = "max" then readSystemMemory readFile
       else
        match goParseUint64 (goTrimSpace content) with
        | none => Except.error (MemErr.parseFailed (goTrimSpace content))
        | some limit =>
          if (1 : Nat) = 1 ∧ 2 ^ 60 < limit then readSystemMemory readFile
          else Except.ok limit) := by
  unfold readCgroupMemoryLimit
  rw [if_neg (by decide)]
  show (match readFile cgroupV1MemoryLimitPath with
    | none => Except.error (MemErr.readFailed cgroupV1MemoryLimitPath)
    | some data =>
      if goTrimSpace data = "max" then readSystemMemory readFile
      else
        match goParseUint64 (goTrimSpace data) with
        | none => Except.error (MemErr.parseFailed (goTrimSpace data))
        | some limit =>
          if (1 : Nat) = 1 ∧ 2 ^ 60 < limit then readSystemMemory readFile
          else Except.ok limit) = _
  rw [h]

/-- A string that parses as an unsigned decimal is not the word `max`. -/
theorem goParse_ne_max {s : String} {v : Nat} (h : goParseUint64 s = some v) : s ≠ "max" := by
  intro he
  rw [he] at h
  have hz : goParseUint64 "max" = none := rfl
  rw [hz] at h
  cases h

/-- A cgroup v1 filesystem whose memory limit file holds exactly 2^60 bytes,
with a meminfo fallback of 8 388 608 000 bytes. -/
def fsV1ExactBound : String → Option String := fun p =>
  if p = cgroupV1MemoryLimitPath then some "1152921504606846976\n"
  else if p = procMemInfoPath then some "MemTotal:       8192000 kB\nMemFree:        4096000 kB\n"
  else none

/-- A cgroup v2 filesystem reporting `max` (no limit), with a meminfo total
of 16 384 000 kB. -/
def fsV2Unlimited : String → Option String := fun p =>
  if p = cgroupV2MemoryMaxPath then some "max\n"
  else if p = procMemInfoPath then some "MemTotal:       16384000 kB\n"
  else none

/-- C4 counterexample: the claim says a parsed cgroup v1 value of *at least*
2^60 falls back to total system memory, but the code only falls back on
values *strictly greater* than 2^60 (`limit > 1<<60`): with
`memory.limit_in_bytes = 1152921504606846976` (exactly 2^60) the parsed
value is returned unchanged, not the meminfo fallback. -/
theorem C4_counterexample :
    readCgroupMemoryLimit 1 fsV1ExactBound = Except.ok (2 ^ 60) ∧
    readSystemMemory fsV1ExactBound = Except.ok 8388608000 ∧
    (Except.ok (2 ^ 60) : Except MemErr Nat) ≠ Except.ok 8388608000 := by
  refine ⟨rfl, rfl, ?_⟩
  intro h
  exact absurd (Except.ok.inj h) (by norm_num)

/-- C4 (amended): reading the cgroup memory limit falls back to
`readSystemMemory` (the `MemTotal` kB value of proc/meminfo times 1024, in
`uint64` arithmetic) in exactly these cases: trimmed contents equal to
`"max"` — under cgroup v2 *and also* under cgroup v1 — and, under cgroup
v1, a parsed value strictly greater than 2^60; otherwise the parsed decimal
value is returned unchanged. -/
theorem C4_fallback_rules :
    (∀ (readFile : String → Option String) (content : String),
      readFile cgroupV2MemoryMaxPath = some content → goTrimSpace content = "max" →
      readCgroupMemoryLimit 2 readFile = readSystemMemory readFile) ∧
    (∀ (readFile : String → Option String) (content : String),
      readFile cgroupV1MemoryLimitPath = some content → goTrimSpace content = "max" →
      readCgroupMemoryLimit 1 readFile = readSystemMemory readFile) ∧
    (∀ (readFile : String → Option String) (content : String) (v : Nat),
      readFile cgroupV1MemoryLimitPath = some content →
      goParseUint64 (goTrimSpace content) = some v → 2 ^ 60 < v →
      readCgroupMemoryLimit 1 readFile = readSystemMemory readFile) ∧
    (∀ (readFile : String → Option String) (content : String) (v : Nat),
      readFile cgroupV2MemoryMaxPath = some content →
      goParseUint64 (goTrimSpace content) = some v →
      readCgroupMemoryLimit 2 readFile = Except.ok v) ∧
    (∀ (readFile : String → Option String) (content : String) (v : Nat),
      readFile cgroupV1MemoryLimitPath = some content →
      goParseUint64 (goTrimSpace content) = some v → v ≤ 2 ^ 60 →
      readCgroupMemoryLimit 1 readFile = Except.ok v) ∧
    (∀ (readFile : String → Option String) (data line : String) (rest : List String)
        (field0 kbStr : String) (fields2 : List String) (kb : Nat),
      readFile procMemInfoPath = some data →
      goSplitNewline data = line :: rest →
      goHasPrefix line "MemTotal:" = true →
      goFields line = field0 :: kbStr :: fields2 →
      goParseUint64 kbStr = some kb →
      readSystemMemory readFile = Except.ok (kb * 1024 % 2 ^ 64)) := by
  refine ⟨?_, ?_, ?_, ?_, ?_, ?_⟩
  · intro readFile content hread htrim
    rw [readCgroup_v2_of_read readFile content hread, if_pos htrim]
  · intro readFile content hread htrim
    rw [readCgroup_v1_of_read readFile content hread, if_pos htrim]
  · intro readFile content v hread hparse hgt
    rw [readCgroup_v1_of_read readFile content hread,
      if_neg (goParse_ne_max hparse), hparse]
    show (if (1 : Nat) = 1 ∧ 2 ^ 60 < v then readSystemMemory readFile else Except.ok v) = _
    rw [if_pos ⟨rfl, hgt⟩]
  · intro readFile content v hread hparse
    rw [readCgroup_v2_of_read readFile content hread,
      if_neg (goParse_ne_max hparse), hparse]
  · intro readFile content v hread hparse hle
    rw [readCgroup_v1_of_read readFile content hread,
      if_neg (goParse_ne_max hparse), hparse]
    show (if (1 : Nat) = 1 ∧ 2 ^ 60 < v then readSystemMemory readFile else Except.ok v) = _
    rw [if_neg (by omega : ¬((1 : Nat) = 1 ∧ 2 ^ 60 < v))]
  · intro readFile data line rest field0 kbStr fields2 kb hread hsplit hstart hfields hparse
    unfold readSystemMemory
    rw [hread]
    show findMemTotal (goSplitNewline data) = Except.ok (kb * 1024 % 2 ^ 64)
    rw [hsplit]
    unfold findMemTotal
    rw [hstart]
    simp only [if_true]
    rw [hfields]
    show (match goParseUint64 kbStr with
      | some kbVal => Except.ok (kbVal * 1024 % 2 ^ 64)
      | none => Except.error MemErr.memTotalParseFailed) = _
    rw [hparse]

theorem C4_fallback_rules_witness :
    readCgroupMemoryLimit 2 fsV2Unlimited = readSystemMemory fsV2Unlimited ∧
    readSystemMemory fsV2Unlimited = Except.ok (16384000 * 1024 % 2 ^ 64) ∧
    readCgroupMemoryLimit 1 fsV1ExactBound = Except.ok 1152921504606846976 := by
  refine ⟨?_, ?_, ?_⟩
  · exact C4_fallback_rules.1 fsV2Unlimited "max\n" rfl rfl
  · exact C4_fallback_rules.2.2.2.2.2 fsV2Unlimited "MemTotal:       16384000 kB\n"
      "MemTotal:       16384000 kB" [""] "MemTotal:" "16384000" ["kB"] 16384000
      rfl rfl rfl rfl rfl
  · exact C4_fallback_rules.2.2.2.2.1 fsV1ExactBound "1152921504606846976\n"
      1152921504606846976 rfl rfl (by norm_num)

/-! ## Command construction -/

/-- The default interpreter name contains no `$`, so environment expansion
leaves it unchanged for every environment. -/
theorem resolve_python3 (env : Env) : ResolveEnvVarPath env "python3" = "python3" := rfl

/-- A `module:entry` application spec is never the empty string. -/
theorem append_colon_ne (a b : String) : a ++ ":" ++ b ≠ "" := by
  intro h
  have h2 : (a ++ ":" ++ b).length = 0 := by rw [h]; rfl
  rw [String.length_append, String.length_append] at h2
  have h3 : (":" : String).length = 1 := rfl
  omega

/-- C5: `BuildCommandArgs` produces the launch-mode table's argv shape — in
`pex` mode with empty `python_path` the executable is invoked directly and
`python_opts` are dropped; in `uvicorn`/`gunicorn` mode the target is
`executable ++ ":" ++ entry_point` when the entry point is non-empty and
`executable` alone otherwise, preceded by the interpreter (`python_path`,
environment-expanded, or `python3`), the python options, `-m` and the server
module; in `command` mode argv is the executable followed by the args with
`python_path` and `python_opts` ignored.  (`executable` is non-empty for
every validated configuration; an empty one would be dropped from argv by
the empty-argument filter.) -/
theorem C5_launch_mode_argv :
    (∀ (env : Env) (config : MergedConfig), config.LaunchMode = LaunchModePEX →
      config.PythonPath = "" →
      BuildCommandArgs env config = config.Executable :: config.Args) ∧
    (∀ (env : Env) (config : MergedConfig), config.LaunchMode = LaunchModeUvicorn →
      config.Executable ≠ "" →
      BuildCommandArgs env config =
        ResolveEnvVarPath env (if config.PythonPath = "" then "python3" else config.PythonPath) ::
          (config.PythonOpts ++
            ["-m", "uvicorn",
              if config.EntryPoint ≠ "" then config.Executable ++ ":" ++ config.EntryPoint
              else config.Executable] ++ config.Args)) ∧
    (∀ (env : Env) (config : MergedConfig), config.LaunchMode = LaunchModeGunicorn →
      config.Executable ≠ "" →
      BuildCommandArgs env config =
        ResolveEnvVarPath env (if config.PythonPath = "" then "python3" else config.PythonPath) ::
          (config.PythonOpts ++
            ["-m", "gunicorn",
              if config.EntryPoint ≠ "" then config.Executable ++ ":" ++ config.EntryPoint
              else config.Executable] ++ config.Args)) ∧
    (∀ (env : Env) (config : MergedConfig), config.LaunchMode = LaunchModeCommand →
      BuildCommandArgs env config = config.Executable :: config.Args) := by
  have happ : ∀ (config : MergedConfig), config.Executable ≠ "" →
      (if config.EntryPoint ≠ "" then config.Executable ++ ":" ++ config.EntryPoint
        else config.Executable) ≠ "" := by
    intro config hexec
    split_ifs with h
    · exact append_colon_ne _ _
    · exact hexec
  have hfilter : ∀ (verb : String) (s : String), s ≠ "" →
      (["-m", verb, s].filter (· ≠ "")) = ["-m", verb, s] ∨ verb = "" := by
    intro verb s hs
    by_cases hv : verb = ""
    · exact Or.inr hv
    · refine Or.inl ?_
      rw [List.filter_cons_of_pos (by decide), List.filter_cons_of_pos (by simpa using hv),
        List.filter_cons_of_pos (by simpa using hs), List.filter_nil]
  refine ⟨?_, ?_, ?_, ?_⟩
  · intro env config hmode hpp
    unfold BuildCommandArgs
    rw [hmode]
    rw [if_neg (by decide), if_neg (by decide), if_neg (by decide), if_neg (by decide),
      if_neg (by decide), if_neg (by simpa using hpp)]
  · intro env config hmode hexec
    unfold BuildCommandArgs
    rw [hmode]
    rw [if_neg (by decide), if_neg (by decide), if_neg (by decide), if_pos rfl]
    unfold buildPythonArgs
    rcases hfilter "uvicorn" _ (happ config hexec) with hf | hf
    · simp only [hf]
    · exact absurd hf (by decide)
  · intro env config hmode hexec
    unfold BuildCommandArgs
    rw [hmode]
    rw [if_neg (by decide), if_neg (by decide), if_neg (by decide), if_neg (by decide),
      if_pos rfl]
    unfold buildPythonArgs
    rcases hfilter "gunicorn" _ (happ config hexec) with hf | hf
    · simp only [hf]
    · exact absurd hf (by decide)
  · intro env config hmode
    unfold BuildCommandArgs
    rw [hmode]
    rw [if_pos rfl]

theorem C5_launch_mode_argv_witness :
    BuildCommandArgs Env.empty
        { defaultMergedConfig with
            LaunchMode := "pex", Executable := "service/bin/app.pex"
            Args := ["server", "var/conf/app.yml"] } =
      ["service/bin/app.pex", "server", "var/conf/app.yml"] ∧
    BuildCommandArgs Env.empty
        { defaultMergedConfig with
            LaunchMode := "uvicorn", Executable := "myapp.main", EntryPoint := "app"
            PythonOpts := ["-O"], Args := ["--host", "0.0.0.0"] } =
      ["python3", "-O", "-m", "uvicorn", "myapp.main:app", "--host", "0.0.0.0"] ∧
    BuildCommandArgs Env.empty
        { defaultMergedConfig with
            LaunchMode := "gunicorn", Executable := "myapp.wsgi", EntryPoint := "application"
            Args := ["-w", "4"] } =
      ["python3", "-m", "gunicorn", "myapp.wsgi:application", "-w", "4"] ∧
    BuildCommandArgs Env.empty
        { defaultMergedConfig with
            LaunchMode := "command", Executable := "/usr/local/bin/myserver"
            PythonOpts := ["-O"], Args := ["--config", "/etc/myserver.yml"] } =
      ["/usr/local/bin/myserver", "--config", "/etc/myserver.yml"] := by
  refine ⟨?_, ?_, ?_, ?_⟩
  · exact C5_launch_mode_argv.1 Env.empty _ rfl rfl
  · have h := C5_launch_mode_argv.2.1 Env.empty
      { defaultMergedConfig with
          LaunchMode := "uvicorn", Executable := "myapp.main", EntryPoint := "app"
          PythonOpts := ["-O"], Args := ["--host", "0.0.0.0"] } rfl (by decide)
    simpa using h
  · have h := C5_launch_mode_argv.2.2.1 Env.empty
      { defaultMergedConfig with
          LaunchMode := "gunicorn", Executable := "myapp.wsgi", EntryPoint := "application"
          Args := ["-w", "4"] } rfl (by decide)
    simpa using h
  · exact C5_launch_mode_argv.2.2.2 Env.empty _ rfl

/-! ## Environment-variable expansion (`ResolveEnvVarPath`) -/

/-- C7: the function's own documentation (process.go:90–92) and the spec
promise that an undefined `$VAR`/`${VAR}` reference remains literal in the
result, but `os.ExpandEnv` substitutes the empty string for undefined
variables: expanding `$UNDEFINED_VAR/bin/python` in an empty environment
yields `/bin/python`, erasing the reference.  Both reference syntaxes are
supported and defined variables are substituted, as documented. -/
theorem C7_undefined_reference_erased :
    ResolveEnvVarPath (fun _ => none) "$UNDEFINED_VAR/bin/python" = "/bin/python" ∧
    "/bin/python" ≠ "$UNDEFINED_VAR/bin/python" ∧
    ResolveEnvVarPath (fun n => if n = "HOME" then some "/root" else none) "$HOME/x" = "/root/x" ∧
    ResolveEnvVarPath (fun n => if n = "HOME" then some "/root" else none) "${HOME}/x" = "/root/x" := by
  exact ⟨rfl, by decide, rfl, rfl⟩

/-! ## Environment composition -/

/-- Function application distributes over an `if` between environments. -/
theorem ite_env_apply (c : Prop) [Decidable c] (m1 m2 : Env) (k : String) :
    (if c then m1 else m2) k = if c then m1 k else m2 k := by
  split_ifs <;> rfl

/-- When memory management is active, `BuildMemoryEnv` maps each of the four
thread-pool keys to the CPU count taken from `runtime.NumCPU()`. -/
theorem buildMemoryEnv_thread_keys (config : MergedConfig) (limits : MemoryLimits)
    (numCPU : Nat) (hmode : config.Memory.Mode ≠ MemoryModeUnmanaged) (k : String)
    (hk : k = "OMP_NUM_THREADS" ∨ k = "MKL_NUM_THREADS" ∨
      k = "OPENBLAS_NUM_THREADS" ∨ k = "NUMEXPR_MAX_THREADS") :
    BuildMemoryEnv config limits numCPU k = some (toString numCPU) := by
  unfold BuildMemoryEnv
  rw [if_neg hmode]
  rcases hk with h | h | h | h <;> subst h <;>
    simp [Env.insert, Env.setDefault, Env.empty, ite_env_apply]

/-- The `BuildMemoryEnv` never sets `SERVICE_CPU_COUNT`. -/
theorem buildMemoryEnv_no_cpu_count (config : MergedConfig) (limits : MemoryLimits)
    (numCPU : Nat) : BuildMemoryEnv config limits numCPU "SERVICE_CPU_COUNT" = none := by
  unfold BuildMemoryEnv
  by_cases h : config.Memory.Mode = MemoryModeUnmanaged
  · rw [if_pos h]
    rfl
  · rw [if_neg h]
    simp [Env.insert, Env.setDefault, Env.empty, ite_env_apply]

/-- An inherited environment that already pins `OMP_NUM_THREADS`. -/
def inheritedWithOMP : Env := fun k => if k = "OMP_NUM_THREADS" then some "7" else none

/-- C6 counterexample: the claim says the CPU block variables are applied as
the final layer and only when not already present; in the code
`BuildProcessEnv` never invokes `BuildCPUEnv` at all — the memory block
(layer 2) sets `OMP_NUM_THREADS` from `runtime.NumCPU()`, overriding an
inherited value, and `SERVICE_CPU_COUNT` is absent from the composed
environment even though `BuildCPUEnv` would provide it. -/
theorem C6_counterexample :
    inheritedWithOMP "OMP_NUM_THREADS" = some "7" ∧
    BuildProcessEnv inheritedWithOMP defaultMergedConfig zeroMemoryLimits "svc" "1.0" 4
      "OMP_NUM_THREADS" = some "4" ∧
    ("4" : String) ≠ "7" ∧
    BuildCPUEnv 4 "SERVICE_CPU_COUNT" = some "4" ∧
    BuildProcessEnv inheritedWithOMP defaultMergedConfig zeroMemoryLimits "svc" "1.0" 4
      "SERVICE_CPU_COUNT" = none := by
  exact ⟨rfl, rfl, by decide, rfl, rfl⟩

/-- C6 (amended): `BuildProcessEnv` has no CPU layer.  When memory
management is active, the four thread-pool variables are injected by the
memory block with the `runtime.NumCPU()` value, overriding the inherited
environment but overridden by the merged config env; and
`SERVICE_CPU_COUNT` is never added — its composed value is whatever the
config env or the inherited environment supplies. -/
theorem C6_no_cpu_layer :
    (∀ (inherited : Env) (config : MergedConfig) (limits : MemoryLimits)
        (serviceName serviceVersion : String) (numCPU : Nat) (k : String),
      config.Memory.Mode ≠ MemoryModeUnmanaged →
      (k = "OMP_NUM_THREADS" ∨ k = "MKL_NUM_THREADS" ∨
        k = "OPENBLAS_NUM_THREADS" ∨ k = "NUMEXPR_MAX_THREADS") →
      config.Env k = none →
      BuildProcessEnv inherited config limits serviceName serviceVersion numCPU k =
        some (toString numCPU)) ∧
    (∀ (inherited : Env) (config : MergedConfig) (limits : MemoryLimits)
        (serviceName serviceVersion : String) (numCPU : Nat) (k w : String),
      (k = "OMP_NUM_THREADS" ∨ k = "MKL_NUM_THREADS" ∨
        k = "OPENBLAS_NUM_THREADS" ∨ k = "NUMEXPR_MAX_THREADS") →
      config.Env k = some w →
      BuildProcessEnv inherited config limits serviceName serviceVersion numCPU k = some w) ∧
    (∀ (inherited : Env) (config : MergedConfig) (limits : MemoryLimits)
        (serviceName serviceVersion : String) (numCPU : Nat),
      config.Env "SERVICE_CPU_COUNT" = none →
      BuildProcessEnv inherited config limits serviceName serviceVersion numCPU
        "SERVICE_CPU_COUNT" = inherited "SERVICE_CPU_COUNT") := by
  refine ⟨?_, ?_, ?_⟩
  · intro inherited config limits serviceName serviceVersion numCPU k hmode hk hcfg
    have hmem := buildMemoryEnv_thread_keys config limits numCPU hmode k hk
    unfold BuildProcessEnv
    rcases hk with h | h | h | h <;> subst h <;>
      simp [Env.insert, Env.setDefault, Env.overlay, hcfg, hmem]
  · intro inherited config limits serviceName serviceVersion numCPU k w hk hcfg
    unfold BuildProcessEnv
    rcases hk with h | h | h | h <;> subst h <;>
      simp [Env.insert, Env.setDefault, Env.overlay, hcfg]
  · intro inherited config limits serviceName serviceVersion numCPU hcfg
    have hmem := buildMemoryEnv_no_cpu_count config limits numCPU
    unfold BuildProcessEnv
    simp [Env.insert, Env.setDefault, Env.overlay, hcfg, hmem]

theorem C6_no_cpu_layer_witness :
    BuildProcessEnv Env.empty defaultMergedConfig zeroMemoryLimits "svc" "1.0" 8
      "MKL_NUM_THREADS" = some "8" ∧
    BuildProcessEnv Env.empty
        { defaultMergedConfig with Env := Env.empty.insert "OMP_NUM_THREADS" "9" }
        zeroMemoryLimits "svc" "1.0" 8 "OMP_NUM_THREADS" = some "9" ∧
    BuildProcessEnv inheritedWithOMP defaultMergedConfig zeroMemoryLimits "svc" "1.0" 8
      "SERVICE_CPU_COUNT" = inheritedWithOMP "SERVICE_CPU_COUNT" := by
  refine ⟨?_, ?_, ?_⟩
  · exact C6_no_cpu_layer.1 Env.empty defaultMergedConfig zeroMemoryLimits "svc" "1.0" 8
      "MKL_NUM_THREADS" (by decide) (Or.inr (Or.inl rfl)) rfl
  · exact C6_no_cpu_layer.2.1 Env.empty
      { defaultMergedConfig with Env := Env.empty.insert "OMP_NUM_THREADS" "9" }
      zeroMemoryLimits "svc" "1.0" 8 "OMP_NUM_THREADS" "9" (Or.inl rfl) rfl
  · exact C6_no_cpu_layer.2.2 inheritedWithOMP defaultMergedConfig zeroMemoryLimits
      "svc" "1.0" 8 rfl

end Launchlib
